import Mathlib

/-!
# Verification of the weather_backend ingestion-persist-broadcast pipeline

Shallow embedding of the server in `src/server.js` and its callback-style
variant `src/unnamed/part_000`.  Both variants implement the same HTTP API
over a SQLite table

  CREATE TABLE readings (id INTEGER PRIMARY KEY AUTOINCREMENT,
                         temperature REAL, humidity REAL, created_at TEXT)

with a WebSocket broadcast hub and a Discord alert webhook.

Modelling choices:
* JavaScript numbers are modelled as rationals (`ℚ`); the claims under
  study never depend on binary floating-point rounding of the stored
  values themselves.
* The database is a list of `Reading` rows in insertion order
  (append-only, AUTOINCREMENT ids).
* SQLite compares `TEXT` values bytewise (memcmp, BINARY collation);
  this is modelled by the lexicographic comparison `strLtB` on the
  character lists (which agrees with the byte order on the ASCII
  timestamp strings produced by `new Date().toISOString()`).
* SQL `ORDER BY created_at DESC` specifies the order only up to ties in
  `created_at`: rows with equal keys may come back in any order.  Facts
  about row *content* of `LIMIT 1` queries are therefore stated through
  the predicate `isLatestCandidate` (any row the query may return),
  while facts about result *length* use a concrete stable sort, since
  every compliant ordering has the same length behaviour.
* The success/failure of the durable INSERT is an environment input
  (`DbWrite`), as is the state of each WebSocket client.
-/

/-- Bytewise (BINARY-collation) strict comparison on character lists,
modelling how SQLite orders the `created_at` TEXT column. -/
def strLtB : List Char → List Char → Bool
  | [], [] => false
  | [], _ :: _ => true
  | _ :: _, [] => false
  | c :: cs, d :: ds =>
    if c.toNat < d.toNat then true
    else if d.toNat < c.toNat then false
    else strLtB cs ds

/-- Comparison `a ≤ b` in the BINARY collation: not `b < a`. -/
def strLeB (a b : List Char) : Bool :=
  !strLtB b a

/-- A persisted row of the `readings` table. -/
structure Reading where
  id : Nat
  temperature : ℚ
  humidity : ℚ
  created_at : String
deriving DecidableEq, Repr

/-- A JavaScript value as far as the validation code observes it:
the JS test that `typeof v` equals "number" holds exactly for `num`. -/
inductive JsVal where
  | num (q : ℚ)
  | str (s : String)
  | boolean (b : Bool)
  | nullV
  | undef
deriving DecidableEq, Repr

/-- The JS test that `typeof v` equals "number" (src/server.js line 75). -/
def JsVal.isNumber : JsVal → Bool
  | .num _ => true
  | _ => false

/-- The JSON request body fields read by `POST /api/readings`:
`const { temperature, humidity } = req.body`. -/
structure ReqBody where
  temperature : JsVal
  humidity : JsVal
deriving DecidableEq, Repr

/-- The `ws` readyState constant `WebSocket.OPEN`. -/
def OPEN : Nat := 1

/-- A WebSocket client as observed by `broadcastJSON`: an identity, its
`readyState`, and whether a send on it would succeed (environment fact;
the source never inspects it). -/
structure Client where
  cid : Nat
  readyState : Nat
  sendOk : Bool
deriving DecidableEq, Repr

/-- The broadcast envelope `{type: ..., data: reading}`; `JSON.stringify`
is presentation only, so the message is kept structured. -/
structure Envelope where
  type : String
  data : Reading
deriving DecidableEq, Repr

/-- Function `broadcastJSON(obj)` (src/server.js lines 40-47): iterates over
`wss.clients`, sending the message to each client whose `readyState` is
`OPEN`.  Returns the list of send attempts and the client set afterwards;
the function contains no removal or error handling, so the set is
returned unchanged whatever the outcome of each send. -/
def broadcastJSON (clients : List Client) (obj : Envelope) :
    List (Client × Envelope) × List Client :=
  (clients.filterMap fun c =>
    if c.readyState = OPEN then some (c, obj) else none,
   clients)

/-- The character of a single decimal digit. -/
def natDigitChar (d : Nat) : Char :=
  Char.ofNat (48 + d)

/-- Decimal digits of `n`, most significant first (`fuel ≥ n` suffices;
structural recursion on the fuel keeps the definition kernel-reducible). -/
def natDigitsAux : Nat → Nat → List Char
  | 0, _ => []
  | fuel + 1, n =>
    if n < 10 then [natDigitChar n]
    else natDigitsAux fuel (n / 10) ++ [natDigitChar (n % 10)]

/-- Decimal rendering of a natural number. -/
def natToStr (n : Nat) : String :=
  ⟨natDigitsAux (n + 1) n⟩

/-- JS `Number.prototype.toFixed(1)` on a nonnegative rational: the integer
`n` with `n/10` closest to the value, ties to the larger `n`
(ECMA-262, Number.prototype.toFixed).  That `n` is
`⌊10*q + 1/2⌋ = ⌊(20*q.num + q.den) / (2*q.den)⌋`, computed on the
numerator and denominator with integer floor division to stay
kernel-reducible. -/
def toFixed1Nonneg (q : ℚ) : String :=
  let n : ℤ := Int.fdiv (20 * q.num + q.den) (2 * q.den)
  let m : Nat := n.toNat
  natToStr (m / 10) ++ "." ++ natToStr (m % 10)

/-- JS `Number.prototype.toFixed(1)`: a negative value (negative numerator)
is formatted as the sign followed by the formatting of its negation. -/
def toFixed1 (q : ℚ) : String :=
  if q.num < 0 then "-" ++ toFixed1Nonneg (-q) else toFixed1Nonneg q

/-- The Discord alert message template (src/server.js lines 56-60). -/
def alertMessage (temp hum : ℚ) : String :=
  "🔥 **HIGH TEMPERATURE ALERT!**\n🌡️ Temperature: **" ++ toFixed1 temp ++
    "°C**\n💧 Humidity: **" ++ toFixed1 hum ++ "%**"

/-- Function `sendDiscordNotification(temp, hum)` (src/server.js lines 52-67):
returns the `content` string dispatched to the webhook, or `none` when
nothing is dispatched.  `!DISCORD_WEBHOOK_URL` is truthy exactly when the
configured URL string is empty (its default). -/
def sendDiscordNotification (webhookUrl : String) (temp hum : ℚ) :
    Option String :=
  if webhookUrl = "" then none
  else if temp ≤ 30 then none
  else some (alertMessage temp hum)

/-- Outcome of the durable `INSERT` — an environment input: SQLite either
confirms the write or reports an error. -/
inductive DbWrite where
  | ok
  | fail
deriving DecidableEq, Repr

/-- AUTOINCREMENT id assignment: one more than the largest id ever used
(the table is append-only, so that is the largest id present). -/
def nextRowId (db : List Reading) : Nat :=
  (db.map Reading.id).foldr max 0 + 1

/-- Everything observable about one `POST /api/readings` request. -/
structure PostOutcome where
  status : Nat
  reading : Option Reading
  errorMsg : Option String
  sends : List (Client × Envelope)
  alert : Option (ℚ × ℚ)
  dbAfter : List Reading
deriving DecidableEq, Repr

/-- The `POST /api/readings` handler (src/server.js lines 72-100,
src/unnamed/part_000 lines 75-110): validate the two body fields with
`typeof`, INSERT with a fresh `created_at`, and on confirmed insert build
the reading record, broadcast `{type:"new-reading"}`, call
`sendDiscordNotification(temperature, humidity)` and answer 201.  A
failed insert answers 500 before any broadcast or alert (explicit in the
callback variant; in the synchronous variant the throw from
`insert.run` skips both and Express answers 500). -/
def postReadings (db : List Reading) (clients : List Client)
    (body : ReqBody) (now : String) (w : DbWrite) : PostOutcome :=
  match body.temperature, body.humidity with
  | .num t, .num h =>
    match w with
    | .fail =>
        { status := 500, reading := none, errorMsg := some "DB error",
          sends := [], alert := none, dbAfter := db }
    | .ok =>
        let r : Reading :=
          { id := nextRowId db, temperature := t, humidity := h,
            created_at := now }
        { status := 201, reading := some r, errorMsg := none,
          sends := (broadcastJSON clients ⟨"new-reading", r⟩).1,
          alert := some (t, h), dbAfter := db ++ [r] }
  | _, _ =>
      { status := 400, reading := none,
        errorMsg := some "temperature and humidity must be numbers",
        sends := [], alert := none, dbAfter := db }

/-- Rows the query `SELECT * FROM readings ORDER BY created_at DESC
LIMIT 1` may return: any stored row whose `created_at` is maximal.  The
SQL gives no tie-breaker, so with tied keys any maximal row is a
compliant answer. -/
def isLatestCandidate (db : List Reading) (row : Reading) : Bool :=
  db.contains row &&
    db.all fun r => strLeB r.created_at.data row.created_at.data

/-- HTTP status of `GET /api/readings/latest` (src/server.js lines
118-125): 404 on an empty table, else 200. -/
def latestStatus (db : List Reading) : Nat :=
  if db = [] then 404 else 200

/-- The comparator actually requested by both SELECTs:
`ORDER BY created_at DESC` — row `a` is strictly before row `b` exactly
when its `created_at` is strictly greater.  No tie-breaker. -/
def sqlBefore (a b : Reading) : Bool :=
  strLtB b.created_at.data a.created_at.data

/-- The ordering the specification asserts: `created_at` descending with
ties broken by `id` descending.  Stated from the words of the spec, for
comparison with `sqlBefore`. -/
def specBefore (a b : Reading) : Bool :=
  strLtB b.created_at.data a.created_at.data ||
    (a.created_at == b.created_at && decide (b.id < a.id))

/-- The whitespace characters `Number()` trims (those occurring in the
inputs in scope). -/
def jsWhitespace (c : Char) : Bool :=
  c = ' ' || c = '\t' || c = '\n' || c = '\r'

/-- Trim of both ends, on the character list. -/
def jsTrim (s : String) : List Char :=
  ((s.data.dropWhile jsWhitespace).reverse.dropWhile jsWhitespace).reverse

/-- Value of a digit string, `none` on any non-digit. -/
def digitsVal : List Char → Nat → Option Nat
  | [], acc => some acc
  | c :: rest, acc =>
      if c.isDigit then digitsVal rest (acc * 10 + (c.toNat - 48))
      else none

/-- Digit-string value; the empty string is not a numeral. -/
def digitsToNat : List Char → Option Nat
  | [] => none
  | cs => digitsVal cs 0

/-- JavaScript `Number()` on the query-parameter strings in scope
(optionally signed integer numerals; `none` models `NaN`):
`Number(undefined) = NaN`, the empty string maps to 0 after trimming, a signed
digit string is its value, anything else is `NaN`.  Fractional numerals
do not occur in the claims and are not modelled. -/
def jsToNumber : Option String → Option ℤ
  | none => none
  | some s =>
    match jsTrim s with
    | [] => some 0
    | '-' :: rest => (digitsToNat rest).map fun n => -(n : ℤ)
    | '+' :: rest => (digitsToNat rest).map fun n => (n : ℤ)
    | cs => (digitsToNat cs).map fun n => (n : ℤ)

/-- The line `const limit = Number(req.query.limit) || 50` (src/server.js line
106): `NaN` and `0` are falsy, so both fall back to 50. -/
def parseLimit (p : Option String) : ℤ :=
  match jsToNumber p with
  | none => 50
  | some z => if z = 0 then 50 else z

/-- The clause `ORDER BY created_at DESC` as a total preorder for sorting (`a`
before `b` when `b.created_at ≤ a.created_at` in the BINARY collation). -/
def createdDesc (a b : Reading) : Prop :=
  strLeB b.created_at.data a.created_at.data = true

instance : DecidableRel createdDesc := fun a b =>
  inferInstanceAs
    (Decidable (strLeB b.created_at.data a.created_at.data = true))

/-- The query `SELECT * FROM readings ORDER BY created_at DESC LIMIT ?` with the
bound limit (src/server.js lines 108-110).  A negative LIMIT means no
upper bound in SQLite ("If the LIMIT expression evaluates to a negative
value, then there is no upper bound on the number of rows returned").
Ties in `created_at` are resolved here by a stable sort; the claims
proved through this function depend only on properties shared by every
compliant tie order. -/
def sqlRecent (db : List Reading) (limit : ℤ) : List Reading :=
  let sorted := List.insertionSort createdDesc db
  if limit < 0 then sorted else sorted.take limit.toNat

/-- The `GET /api/readings` handler (src/server.js lines 105-113):
parse the limit, run the SELECT, answer the rows. -/
def getReadings (db : List Reading) (limitParam : Option String) :
    List Reading :=
  sqlRecent db (parseLimit limitParam)

/-- The limit the claim attributes to the endpoint, stated from the
words of the spec, for comparison with `parseLimit`: the parsed parameter
value, defaulting to 50 only when absent or non-numeric. -/
def claimedLimit (p : Option String) : ℤ :=
  match jsToNumber p with
  | none => 50
  | some z => z

/-! ## Order facts about the BINARY collation -/

theorem strLtB_irrefl : ∀ a, strLtB a a = false
  | [] => rfl
  | c :: cs => by simp [strLtB, strLtB_irrefl cs]

theorem strLtB_asymm : ∀ a b, strLtB a b = true → strLtB b a = false
  | [], [] => by simp [strLtB]
  | [], _ :: _ => by simp [strLtB]
  | _ :: _, [] => by simp [strLtB]
  | c :: cs, d :: ds => by
    intro h
    simp only [strLtB] at h ⊢
    by_cases h1 : c.toNat < d.toNat
    · have h2 : ¬ d.toNat < c.toNat := Nat.lt_asymm h1
      simp [h1, h2]
    · by_cases h2 : d.toNat < c.toNat
      · simp [h1, h2] at h
      · simp only [h1, h2, if_false] at h ⊢
        exact strLtB_asymm cs ds h

theorem strLtB_le_trans : ∀ a b c,
    strLtB b a = false → strLtB c b = false → strLtB c a = false
  | [], _, [] => by intro _ _; rfl
  | [], _, _ :: _ => by intro _ _; rfl
  | _ :: _, [], _ => by intro h1 _; simp [strLtB] at h1
  | _ :: _, _ :: _, [] => by intro _ h2; simp [strLtB] at h2
  | x :: xs, y :: ys, z :: zs => by
    intro h1 h2
    simp only [strLtB] at h1 h2 ⊢
    by_cases hyx : y.toNat < x.toNat
    · simp [hyx] at h1
    · by_cases hzy : z.toNat < y.toNat
      · simp [hzy] at h2
      · have hzx : ¬ z.toNat < x.toNat := by omega
        simp only [hzx, if_false]
        by_cases hxz : x.toNat < z.toNat
        · simp [hxz]
        · have hxy : ¬ x.toNat < y.toNat := by omega
          have hyz : ¬ y.toNat < z.toNat := by omega
          simp only [hyx, hxy, if_false] at h1
          simp only [hzy, hyz, if_false] at h2
          simp only [hxz, if_false]
          exact strLtB_le_trans xs ys zs h1 h2

instance : IsTotal Reading createdDesc := by
  constructor
  intro a b
  unfold createdDesc strLeB
  rcases hab : strLtB a.created_at.data b.created_at.data with _ | _
  · left; simp [hab]
  · right; simp [strLtB_asymm _ _ hab]

instance : IsTrans Reading createdDesc := by
  constructor
  intro a b c hab hbc
  unfold createdDesc strLeB at hab hbc ⊢
  simp only [Bool.not_eq_true', Bool.not_eq_false] at hab hbc ⊢
  exact strLtB_le_trans _ _ _ hbc hab

/-- Shared helper: a row inserted with a `created_at` strictly greater
than every stored one is the unique answer the latest-query may give. -/
theorem latestCandidate_strict_max (db : List Reading) (rn : Reading)
    (hfresh : ∀ r ∈ db, strLtB r.created_at.data rn.created_at.data = true) :
    isLatestCandidate (db ++ [rn]) rn = true ∧
    ∀ row, isLatestCandidate (db ++ [rn]) row = true → row = rn := by
  constructor
  · simp only [isLatestCandidate, Bool.and_eq_true, List.all_eq_true,
      List.elem_iff]
    refine ⟨List.mem_append_right _ (List.mem_singleton.mpr rfl), ?_⟩
    intro r hr
    rcases List.mem_append.mp hr with hdb | hlast
    · simp only [strLeB, Bool.not_eq_true']
      exact strLtB_asymm _ _ (hfresh r hdb)
    · rw [List.mem_singleton.mp hlast]
      simp only [strLeB, Bool.not_eq_true']
      exact strLtB_irrefl _
  · intro row hrow
    simp only [isLatestCandidate, Bool.and_eq_true, List.all_eq_true,
      List.elem_iff] at hrow
    obtain ⟨hmem, hall⟩ := hrow
    rcases List.mem_append.mp hmem with hdb | hlast
    · exfalso
      have h1 : strLtB row.created_at.data rn.created_at.data = true :=
        hfresh row hdb
      have h2 := hall rn (List.mem_append_right _ (List.mem_singleton.mpr rfl))
      simp only [strLeB, Bool.not_eq_true'] at h2
      rw [h1] at h2
      simp [h1] at h2
    · exact List.mem_singleton.mp hlast

/-! ## Concrete instances used by witnesses and counterexamples -/

/-- A fixed ISO timestamp used by the concrete instances. -/
def tieTs : String := "2025-01-01T00:00:00.000Z"

/-- A reading stored before the instances under study. -/
def rowA : Reading := ⟨1, 20, 50, tieTs⟩

/-- The reading produced by inserting `{temperature:25, humidity:55}`
into `[rowA]` at the same timestamp. -/
def rowB : Reading := ⟨2, 25, 55, tieTs⟩

/-- A later reading with a strictly greater timestamp. -/
def rowC : Reading := ⟨2, 25, 55, "2025-01-01T00:00:01.000Z"⟩

/-- A subscribed, OPEN client whose sends succeed. -/
def openClient : Client := ⟨1, OPEN, true⟩

/-- A subscribed, OPEN client whose sends fail. -/
def deadClient : Client := ⟨7, OPEN, false⟩

/-! ## Claims -/

/-- C1: for a request body that passes validation, a failed durable
insert yields a 500 server error with no broadcast, no alert and an
unchanged store; and a broadcast or an alert can only arise from a
confirmed (`ok`) insert — persistence precedes publication. -/
theorem post_storeFail_no_broadcast_no_alert
    (db : List Reading) (clients : List Client) (body : ReqBody)
    (now : String)
    (hv : (body.temperature.isNumber && body.humidity.isNumber) = true) :
    ((postReadings db clients body now .fail).status = 500 ∧
      (postReadings db clients body now .fail).sends = [] ∧
      (postReadings db clients body now .fail).alert = none ∧
      (postReadings db clients body now .fail).dbAfter = db) ∧
    ∀ w, ((postReadings db clients body now w).sends ≠ [] ∨
        (postReadings db clients body now w).alert ≠ none) →
      w = DbWrite.ok := by
  obtain ⟨bt, bh⟩ := body
  cases bt <;> simp [JsVal.isNumber] at hv
  cases bh <;> simp [JsVal.isNumber] at hv
  refine ⟨⟨rfl, rfl, rfl, rfl⟩, ?_⟩
  intro w hw
  cases w with
  | ok => rfl
  | fail => simp [postReadings] at hw

/-- Witness for C1: a concrete valid body whose insert fails. -/
theorem post_storeFail_no_broadcast_no_alert_witness :
    (postReadings [] [openClient] ⟨JsVal.num 22, JsVal.num 60⟩ tieTs
        DbWrite.fail).status = 500 ∧
    (postReadings [] [openClient] ⟨JsVal.num 22, JsVal.num 60⟩ tieTs
        DbWrite.fail).sends = [] ∧
    (postReadings [] [openClient] ⟨JsVal.num 22, JsVal.num 60⟩ tieTs
        DbWrite.fail).alert = none ∧
    (postReadings [] [openClient] ⟨JsVal.num 22, JsVal.num 60⟩ tieTs
        DbWrite.fail).dbAfter = [] :=
  (post_storeFail_no_broadcast_no_alert [] [openClient]
    ⟨JsVal.num 22, JsVal.num 60⟩ tieTs (by decide)).1

/-- C3: a body in which temperature or humidity is missing or not
numeric yields a 400 client error and no side effect, whatever the
insert outcome would have been: store unchanged, no send to any
subscriber, no alert. -/
theorem post_invalid_400_no_side_effects
    (db : List Reading) (clients : List Client) (body : ReqBody)
    (now : String) (w : DbWrite)
    (hv : (body.temperature.isNumber && body.humidity.isNumber) = false) :
    (postReadings db clients body now w).status = 400 ∧
    (postReadings db clients body now w).dbAfter = db ∧
    (postReadings db clients body now w).sends = [] ∧
    (postReadings db clients body now w).alert = none := by
  obtain ⟨bt, bh⟩ := body
  cases bt <;> cases bh <;> simp [JsVal.isNumber] at hv <;>
    exact ⟨rfl, rfl, rfl, rfl⟩

/-- Witness for C3 (Scenario B): `{temperature: "hot", humidity: 50}`. -/
theorem post_invalid_400_no_side_effects_witness :
    (postReadings [rowA] [openClient] ⟨JsVal.str "hot", JsVal.num 50⟩ tieTs
        DbWrite.ok).status = 400 ∧
    (postReadings [rowA] [openClient] ⟨JsVal.str "hot", JsVal.num 50⟩ tieTs
        DbWrite.ok).dbAfter = [rowA] ∧
    (postReadings [rowA] [openClient] ⟨JsVal.str "hot", JsVal.num 50⟩ tieTs
        DbWrite.ok).sends = [] ∧
    (postReadings [rowA] [openClient] ⟨JsVal.str "hot", JsVal.num 50⟩ tieTs
        DbWrite.ok).alert = none :=
  post_invalid_400_no_side_effects [rowA] [openClient]
    ⟨JsVal.str "hot", JsVal.num 50⟩ tieTs DbWrite.ok (by decide)

/-- C4: a successful ingestion answers 201 with the persisted reading;
the broadcast envelope `{type:"new-reading", data: r}` goes to every
currently subscribed (registered and OPEN) channel and carries exactly
the reading of the response; every sent message carries that same
reading; and the alert sink receives the temperature and humidity of
that same reading, unchanged. -/
theorem post_success_same_reading_everywhere
    (db : List Reading) (clients : List Client) (t h : ℚ) (now : String) :
    (postReadings db clients ⟨.num t, .num h⟩ now .ok).status = 201 ∧
    (postReadings db clients ⟨.num t, .num h⟩ now .ok).reading =
      some ⟨nextRowId db, t, h, now⟩ ∧
    (postReadings db clients ⟨.num t, .num h⟩ now .ok).sends =
      (broadcastJSON clients ⟨"new-reading", ⟨nextRowId db, t, h, now⟩⟩).1 ∧
    (∀ c ∈ clients, c.readyState = OPEN →
      (c, Envelope.mk "new-reading" ⟨nextRowId db, t, h, now⟩) ∈
        (postReadings db clients ⟨.num t, .num h⟩ now .ok).sends) ∧
    (∀ c msg,
      (c, msg) ∈ (postReadings db clients ⟨.num t, .num h⟩ now .ok).sends →
        msg = Envelope.mk "new-reading" ⟨nextRowId db, t, h, now⟩) ∧
    (postReadings db clients ⟨.num t, .num h⟩ now .ok).alert = some (t, h) := by
  refine ⟨rfl, rfl, rfl, ?_, ?_, rfl⟩
  · intro c hc hopen
    show (c, _) ∈ clients.filterMap _
    simp only [List.mem_filterMap]
    exact ⟨c, hc, by simp [hopen]⟩
  · intro c msg hmem
    have hmem' : (c, msg) ∈ clients.filterMap fun a =>
        if a.readyState = OPEN
        then some (a, Envelope.mk "new-reading" ⟨nextRowId db, t, h, now⟩)
        else none := hmem
    simp only [List.mem_filterMap] at hmem'
    obtain ⟨a, _, hra⟩ := hmem'
    by_cases hb : a.readyState = OPEN
    · rw [if_pos hb] at hra
      simp only [Option.some.injEq, Prod.mk.injEq] at hra
      exact hra.2.symm
    · rw [if_neg hb] at hra
      exact absurd hra (by simp)

/-- Witness for C4: one OPEN subscriber receives the envelope with the
same reading as the response, and the alert gets the same values. -/
theorem post_success_same_reading_everywhere_witness :
    (postReadings [] [openClient] ⟨JsVal.num 22, JsVal.num 60⟩ tieTs
        DbWrite.ok).reading = some ⟨1, 22, 60, tieTs⟩ ∧
    (openClient, Envelope.mk "new-reading" ⟨1, 22, 60, tieTs⟩) ∈
      (postReadings [] [openClient] ⟨JsVal.num 22, JsVal.num 60⟩ tieTs
        DbWrite.ok).sends ∧
    (postReadings [] [openClient] ⟨JsVal.num 22, JsVal.num 60⟩ tieTs
        DbWrite.ok).alert = some (22, 60) := by
  have hth := post_success_same_reading_everywhere [] [openClient] 22 60 tieTs
  exact ⟨hth.2.1, hth.2.2.2.1 openClient (by decide) (by decide), hth.2.2.2.2.2⟩

/-- C5: the alert is a no-op exactly when no webhook URL is configured
or the temperature is at most 30.0 (so 30.0 itself never alerts); an
emitted message is the alert template, embedding the temperature and
the humidity each formatted to one decimal place. -/
theorem alert_threshold_and_format (url : String) (t h : ℚ) :
    (sendDiscordNotification url t h = none ↔ (url = "" ∨ t ≤ 30)) ∧
    (t ≤ 30 → sendDiscordNotification url t h = none) ∧
    ∀ msg, sendDiscordNotification url t h = some msg →
      msg = alertMessage t h ∧
      (∃ a b, msg = a ++ (toFixed1 t ++ b)) ∧
      ∃ a b, msg = a ++ (toFixed1 h ++ b) := by
  refine ⟨?_, ?_, ?_⟩
  · unfold sendDiscordNotification
    split_ifs <;> simp [*]
  · intro hle
    unfold sendDiscordNotification
    split_ifs <;> rfl
  · intro msg hmsg
    unfold sendDiscordNotification at hmsg
    split_ifs at hmsg
    have hmsg' := (Option.some.inj hmsg).symm
    refine ⟨hmsg', ?_, ?_⟩
    · refine ⟨"🔥 **HIGH TEMPERATURE ALERT!**\n🌡️ Temperature: **",
        "°C**\n💧 Humidity: **" ++ toFixed1 h ++ "%**", ?_⟩
      rw [hmsg']
      simp [alertMessage, String.append_assoc]
    · refine ⟨"🔥 **HIGH TEMPERATURE ALERT!**\n🌡️ Temperature: **" ++
        toFixed1 t ++ "°C**\n💧 Humidity: **", "%**", ?_⟩
      rw [hmsg']
      simp [alertMessage, String.append_assoc]

/-- Witness for C5 (Scenarios C and D at the actual values of the code): with
a configured webhook, 30 °C does not alert, 35 °C alerts with the
template message, and the embedded strings are "35.0" and "40.0". -/
theorem alert_threshold_and_format_witness :
    sendDiscordNotification "https://discord.example/webhook" 30 40 = none ∧
    sendDiscordNotification "https://discord.example/webhook" 35 40 =
      some (alertMessage 35 40) ∧
    toFixed1 35 = "35.0" ∧ toFixed1 40 = "40.0" :=
  ⟨(alert_threshold_and_format "https://discord.example/webhook" 30 40).2.1
      (by decide),
   by decide, by decide, by decide⟩

/-- C2 counterexample: two readings inserted in order with equal
`created_at` values.  The comparator the SQL actually requests orders
them neither way (no id tie-break, unlike the claimed comparator), and
the earlier reading `rowA` is also a compliant answer of the latest
query over `[rowA, rowB]`, so Latest() is not determined to be the last
inserted reading. -/
theorem ordering_tiebreak_counterexample :
    sqlBefore rowB rowA = false ∧ sqlBefore rowA rowB = false ∧
    specBefore rowB rowA = true ∧
    isLatestCandidate [rowA, rowB] rowA = true ∧
    rowA ≠ rowB := by decide

/-- C2 amended: the query ordering is `created_at` descending with no
tie-break, so Latest() is only determined up to `created_at` ties; when
the `created_at` of the last inserted reading is strictly greater than every
earlier one, it is the unique possible answer of the latest query. -/
theorem latest_unique_when_created_at_fresh
    (db : List Reading) (rn : Reading)
    (hfresh : ∀ r ∈ db, strLtB r.created_at.data rn.created_at.data = true) :
    isLatestCandidate (db ++ [rn]) rn = true ∧
    ∀ row, isLatestCandidate (db ++ [rn]) row = true → row = rn :=
  latestCandidate_strict_max db rn hfresh

/-- Witness for C2 amended: after `rowA` then the strictly newer `rowC`,
`rowC` is a latest candidate. -/
theorem latest_unique_when_created_at_fresh_witness :
    isLatestCandidate ([rowA] ++ [rowC]) rowC = true :=
  (latest_unique_when_created_at_fresh [rowA] rowC (by decide)).1

/-- C7 counterexample: a subscriber whose send fails (`sendOk = false`)
is sent the message and is still in the subscriber set after the
broadcast — `broadcastJSON` removes nobody. -/
theorem broadcast_no_removal_counterexample :
    deadClient.sendOk = false ∧
    (deadClient, Envelope.mk "new-reading" rowA) ∈
      (broadcastJSON [deadClient] ⟨"new-reading", rowA⟩).1 ∧
    (broadcastJSON [deadClient] ⟨"new-reading", rowA⟩).2 = [deadClient] := by
  decide

/-- C7 amended: every OPEN subscriber is sent the message independently
of the state or send outcome of any other subscriber (one dead or failing
subscriber cannot block the rest), non-OPEN subscribers are skipped, and
the subscriber set is unchanged: `broadcastJSON` does not remove a
subscriber whose send fails (removal happens only when the connection
closes, outside this function). -/
theorem broadcast_best_effort_no_removal
    (clients : List Client) (obj : Envelope) :
    (broadcastJSON clients obj).2 = clients ∧
    (∀ c ∈ clients, c.readyState = OPEN →
      (c, obj) ∈ (broadcastJSON clients obj).1) ∧
    ∀ c msg, (c, msg) ∈ (broadcastJSON clients obj).1 →
      c ∈ clients ∧ c.readyState = OPEN ∧ msg = obj := by
  refine ⟨rfl, ?_, ?_⟩
  · intro c hc hopen
    show (c, obj) ∈ clients.filterMap _
    simp only [List.mem_filterMap]
    exact ⟨c, hc, by simp [hopen]⟩
  · intro c msg hmem
    have hmem' : (c, msg) ∈ clients.filterMap fun a =>
        if a.readyState = OPEN then some (a, obj) else none := hmem
    simp only [List.mem_filterMap] at hmem'
    obtain ⟨a, ha, hra⟩ := hmem'
    by_cases hb : a.readyState = OPEN
    · rw [if_pos hb] at hra
      simp only [Option.some.injEq, Prod.mk.injEq] at hra
      obtain ⟨rfl, rfl⟩ := hra
      exact ⟨ha, hb, rfl⟩
    · rw [if_neg hb] at hra
      exact absurd hra (by simp)

/-- Witness for C7 amended: the failing OPEN subscriber both receives
the send attempt and survives in the subscriber set. -/
theorem broadcast_best_effort_no_removal_witness :
    (broadcastJSON [deadClient] ⟨"latest-reading", rowA⟩).2 = [deadClient] ∧
    (deadClient, Envelope.mk "latest-reading" rowA) ∈
      (broadcastJSON [deadClient] ⟨"latest-reading", rowA⟩).1 := by
  have hth := broadcast_best_effort_no_removal [deadClient]
    ⟨"latest-reading", rowA⟩
  exact ⟨hth.1, hth.2.1 deadClient (by decide) (by decide)⟩

/-- C8 counterexample: inserting `{temperature:25, humidity:55}` over
`[rowA]` at the very timestamp of `rowA` answers 201 with id 2, yet `rowA`
(id 1) remains a compliant answer of the subsequent latest query, so the
fetched record is not forced to match the POST response. -/
theorem roundtrip_tie_counterexample :
    (postReadings [rowA] [] ⟨JsVal.num 25, JsVal.num 55⟩ tieTs
        DbWrite.ok).reading = some rowB ∧
    isLatestCandidate
      (postReadings [rowA] [] ⟨JsVal.num 25, JsVal.num 55⟩ tieTs
        DbWrite.ok).dbAfter rowA = true ∧
    rowA.id ≠ rowB.id := by decide

/-- C8 amended: when the `created_at` of the inserted reading is strictly
greater than that of every stored reading, any answer of the subsequent
latest query is exactly the reading of the 201 response — same id,
temperature, humidity and created_at. -/
theorem roundtrip_fresh_timestamp
    (db : List Reading) (clients : List Client) (t h : ℚ) (now : String)
    (hfresh : ∀ r ∈ db, strLtB r.created_at.data now.data = true) :
    (postReadings db clients ⟨.num t, .num h⟩ now .ok).reading =
      some ⟨nextRowId db, t, h, now⟩ ∧
    ∀ row,
      isLatestCandidate
        (postReadings db clients ⟨.num t, .num h⟩ now .ok).dbAfter row =
        true →
      row = ⟨nextRowId db, t, h, now⟩ ∧
      some row = (postReadings db clients ⟨.num t, .num h⟩ now .ok).reading := by
  refine ⟨rfl, ?_⟩
  intro row hrow
  have hrow' : isLatestCandidate (db ++ [⟨nextRowId db, t, h, now⟩]) row =
      true := hrow
  have hu := (latestCandidate_strict_max db ⟨nextRowId db, t, h, now⟩
    hfresh).2 row hrow'
  exact ⟨hu, by rw [hu]; rfl⟩

/-- Witness for C8 amended: inserting at a strictly newer timestamp over
`[rowA]` gives a 201 response carrying exactly `rowC`. -/
theorem roundtrip_fresh_timestamp_witness :
    (postReadings [rowA] [] ⟨JsVal.num 25, JsVal.num 55⟩
        "2025-01-01T00:00:01.000Z" DbWrite.ok).reading = some rowC :=
  (roundtrip_fresh_timestamp [rowA] [] 25 55 "2025-01-01T00:00:01.000Z"
    (by decide)).1

/-- C6 counterexample: with one stored reading and `limit=0`, the limit
the claim attributes to the request is the parsed value 0, yet the code
coerces the falsy 0 to the default 50 and returns the stored reading:
the response length 1 exceeds the claimed limit 0. -/
theorem recent_limit_zero_counterexample :
    claimedLimit (some "0") = 0 ∧
    (getReadings [rowA] (some "0")).length = 1 ∧
    ¬ (((getReadings [rowA] (some "0")).length : ℤ) ≤
        claimedLimit (some "0")) := by decide

/-- C6 amended: the effective limit defaults to 50 when the parameter is
absent, non-numeric, or parses to the falsy 0; when the effective limit
is nonnegative the response length is min(limit, stored count); a
negative effective limit disables the bound and every stored reading is
returned.  The rows are ordered by `created_at` descending
(`createdDesc`, no tie-break). -/
theorem getReadings_default_length_sorted
    (db : List Reading) (p : Option String) :
    parseLimit none = 50 ∧
    parseLimit (some "abc") = 50 ∧
    parseLimit (some "0") = 50 ∧
    ((getReadings db p).length =
      if parseLimit p < 0 then db.length
      else min (parseLimit p).toNat db.length) ∧
    (getReadings db p).Sorted createdDesc := by
  refine ⟨by decide, by decide, by decide, ?_, ?_⟩
  · show (sqlRecent db (parseLimit p)).length = _
    simp only [sqlRecent]
    split
    · exact List.length_insertionSort createdDesc db
    · rw [List.length_take, List.length_insertionSort]
  · show (sqlRecent db (parseLimit p)).Sorted createdDesc
    simp only [sqlRecent]
    split
    · exact List.sorted_insertionSort createdDesc db
    · exact List.Pairwise.sublist (List.take_sublist _ _)
        (List.sorted_insertionSort createdDesc db)

/-- C9: the expression `Number(x) || 50` coerces the falsy parsed 0 to
the default 50, so `limit=0` does not bound the response to zero rows:
with two stored readings the response has length 2 — exceeding the
requested limit 0 — and is bounded by 50, not 0. -/
theorem limit_zero_uses_default :
    parseLimit (some "0") = 50 ∧
    (getReadings [rowA, rowC] (some "0")).length = 2 ∧
    0 < (getReadings [rowA, rowC] (some "0")).length ∧
    (getReadings [rowA, rowC] (some "0")).length ≤ 50 := by decide

/-- C10: on the parameter "-1" the parse keeps the truthy -1, which reaches the SQL
LIMIT unchanged; SQLite applies no upper bound for a negative limit, so
the response carries every stored reading and its length is not bounded
by the requested limit. -/
theorem negative_limit_returns_all (db : List Reading) :
    parseLimit (some "-1") = -1 ∧
    (getReadings db (some "-1")).length = db.length ∧
    (∀ r : Reading, r ∈ getReadings db (some "-1") ↔ r ∈ db) ∧
    ∀ r : Reading, r ∈ db →
      ¬ (((getReadings db (some "-1")).length : ℤ) ≤ parseLimit (some "-1")) := by
  have hp : parseLimit (some "-1") = -1 := by decide
  have hneg : parseLimit (some "-1") < 0 := by rw [hp]; decide
  refine ⟨hp, ?_, ?_, ?_⟩
  · show (sqlRecent db (parseLimit (some "-1"))).length = db.length
    simp only [sqlRecent, if_pos hneg]
    exact List.length_insertionSort createdDesc db
  · intro r
    show r ∈ sqlRecent db (parseLimit (some "-1")) ↔ r ∈ db
    simp only [sqlRecent, if_pos hneg]
    exact List.mem_insertionSort createdDesc
  · intro r hr
    have hlen : (sqlRecent db (parseLimit (some "-1"))).length = db.length := by
      simp only [sqlRecent, if_pos hneg]
      exact List.length_insertionSort createdDesc db
    show ¬ (((sqlRecent db (parseLimit (some "-1"))).length : ℤ) ≤ _)
    rw [hlen, hp]
    have : 0 < db.length := List.length_pos.mpr (List.ne_nil_of_mem hr)
    omega

/-- Witness for C10: with one stored reading, the response to
`limit=-1` has length 1, which the requested limit -1 does not bound. -/
theorem negative_limit_returns_all_witness :
    ¬ (((getReadings [rowA] (some "-1")).length : ℤ) ≤
        parseLimit (some "-1")) :=
  (negative_limit_returns_all [rowA]).2.2.2 rowA (by decide)
